import Mathlib

/-!
Shallow embedding of the MovieDoppelganger capture-to-reveal pipeline
(src/scripts/animation.js, camera.js, faceDetection.js, preloader.js and the
main application module), together with proofs of the specified properties.

Timed, DOM-mutating code is embedded as pure trace-producing functions:
each asynchronous routine is translated to a function that returns the list
of observable steps (draw operations, waits, displayed values) it performs,
with every call to the ambient random-number source replaced by an explicit
stream of rationals (the contract of the source, values in [0,1), is carried
as a hypothesis where a bound depends on it).
-/

namespace MovieDoppelganger

/-! ## Fisher-Yates shuffle (Animation.shuffleArray, animation.js lines 59-66) -/

/-- The simultaneous destructuring assignment
of the Fisher-Yates loop body: exchange the entries at positions i and j.
Out-of-range indices leave the list unchanged (the loop never produces them
for an in-contract random source). -/
def listSwap (l : List α) (i j : Nat) : List α :=
  match l[i]?, l[j]? with
  | some a, some b => (l.set i b).set j a
  | some _, none => l
  | none, _ => l

/-- Writing a list element back over position m and consing the old value in
front is a permutation of consing the new value in front. -/
theorem cons_set_perm {t : List α} {m : Nat} {b : α} (h : t[m]? = some b) (a : α) :
    (b :: t.set m a).Perm (a :: t) := by
  induction t generalizing m with
  | nil => simp at h
  | cons c t ih =>
    cases m with
    | zero =>
      simp only [List.getElem?_cons_zero, Option.some.injEq] at h
      subst h
      simpa using List.Perm.swap a c t
    | succ m =>
      simp only [List.getElem?_cons_succ] at h
      have h1 : (b :: c :: t.set m a).Perm (c :: b :: t.set m a) :=
        List.Perm.swap c b (t.set m a)
      have h2 : (c :: b :: t.set m a).Perm (c :: (a :: t)) := (ih h).cons c
      have h3 : (c :: a :: t).Perm (a :: c :: t) := List.Perm.swap a c t
      exact (h1.trans h2).trans h3

/-- The two-write exchange underlying listSwap permutes the list. -/
theorem set_set_perm {l : List α} {i j : Nat} {a b : α}
    (ha : l[i]? = some a) (hb : l[j]? = some b) :
    ((l.set i b).set j a).Perm l := by
  induction l generalizing i j with
  | nil => simp at ha
  | cons x t ih =>
    cases i with
    | zero =>
      simp only [List.getElem?_cons_zero, Option.some.injEq] at ha
      subst ha
      cases j with
      | zero =>
        simp only [List.getElem?_cons_zero, Option.some.injEq] at hb
        subst hb
        simp
      | succ j =>
        simp only [List.getElem?_cons_succ] at hb
        simpa using cons_set_perm hb x
    | succ i =>
      simp only [List.getElem?_cons_succ] at ha
      cases j with
      | zero =>
        simp only [List.getElem?_cons_zero, Option.some.injEq] at hb
        subst hb
        simpa using cons_set_perm ha x
      | succ j =>
        simp only [List.getElem?_cons_succ] at hb
        simpa using (ih ha hb).cons x

/-- listSwap always permutes its input. -/
theorem listSwap_perm (l : List α) (i j : Nat) : (listSwap l i j).Perm l := by
  unfold listSwap
  split
  · next a b ha hb => exact set_set_perm ha hb
  · exact List.Perm.refl l
  · exact List.Perm.refl l

/-- The Fisher-Yates loop of Animation.shuffleArray, for loop counters
i, i-1, ..., 1; at counter i the swap partner is
j = Math.floor(Math.random() * (i + 1)), with the random draw for counter i
taken from the stream rnd. -/
def fyAux (rnd : Nat → ℚ) : Nat → List α → List α
  | 0, l => l
  | i + 1, l => fyAux rnd i (listSwap l (i + 1) (⌊rnd (i + 1) * ((i + 2 : Nat) : ℚ)⌋).toNat)

/-- Animation.shuffleArray (animation.js lines 59-66): copy the array and run
the Fisher-Yates loop from index length - 1 down to 1. -/
def shuffleArray (array : List α) (rnd : Nat → ℚ) : List α :=
  fyAux rnd (array.length - 1) array

theorem fyAux_perm (rnd : Nat → ℚ) : ∀ (i : Nat) (l : List α), (fyAux rnd i l).Perm l
  | 0, l => List.Perm.refl l
  | i + 1, l => ((fyAux_perm rnd i _).trans (listSwap_perm l (i + 1) _))

/-- The shuffled array is a permutation of the input. -/
theorem shuffleArray_perm (array : List α) (rnd : Nat → ℚ) :
    (shuffleArray array rnd).Perm array := fyAux_perm rnd _ array

theorem shuffleArray_length (array : List α) (rnd : Nat → ℚ) :
    (shuffleArray array rnd).length = array.length :=
  (shuffleArray_perm array rnd).length_eq

/-! ## Matching animation (Animation.animateMatching, animation.js lines 71-105) -/

/-- One switch of the matching animation: the candidate whose portrait is
displayed (none when the indexed pool entry is missing, mirroring the
if-character guard of the source) and the displayed percentage. -/
structure MatchTick (α : Type u) where
  candidate : Option α
  percentage : Nat
deriving DecidableEq

/-- The percentage drawn at a switch:
Math.floor(Math.random() * 41) + 20 with r the value of Math.random(). -/
def randomPercentage (r : ℚ) : Nat := (⌊r * 41⌋).toNat + 20

/-- Animation.animateMatching as a trace of its switches. The pool is
shuffled once before the first switch; switch k displays the shuffled entry
at index k mod pool size (none when that lookup misses, as the source guards
the assignment with if (character)) and a fresh percentage drawn from the
stream pctRnd. The trace ends, and the promise resolves, after
switchCount = floor(duration / 200) switches. -/
def animateMatching (characterImages : List α) (shuffleRnd pctRnd : Nat → ℚ)
    (duration : Nat := 5000) : List (MatchTick α) :=
  let shuffledCharacters := shuffleArray characterImages shuffleRnd
  let switchInterval := 200
  let switchCount := duration / switchInterval
  (List.range switchCount).map (fun currentSwitch =>
    { candidate := shuffledCharacters[currentSwitch % shuffledCharacters.length]?,
      percentage := randomPercentage (pctRnd currentSwitch) })

theorem randomPercentage_mem (r : ℚ) (h0 : 0 ≤ r) (h1 : r < 1) :
    20 ≤ randomPercentage r ∧ randomPercentage r ≤ 60 := by
  have hlt : ⌊r * 41⌋ < 41 := by
    rw [Int.floor_lt]
    calc r * 41 < 1 * 41 := by
          exact mul_lt_mul_of_pos_right h1 (by norm_num)
      _ = ((41 : ℤ) : ℚ) := by norm_num
  have hle : (⌊r * 41⌋).toNat ≤ 40 := by omega
  constructor
  · exact Nat.le_add_left 20 _
  · simpa [randomPercentage] using Nat.add_le_add_right hle 20

theorem animateMatching_getElem (pool : List α) (rs rp : Nat → ℚ) (d k : Nat)
    (hk : k < d / 200) :
    (animateMatching pool rs rp d)[k]? =
      some { candidate := (shuffleArray pool rs)[k % (shuffleArray pool rs).length]?,
             percentage := randomPercentage (rp k) } := by
  simp [animateMatching, List.getElem?_map, List.getElem?_range, hk]

/-- Claim C1: for a matching run of duration 5000 ms with switch interval
200 ms over a non-empty pool, exactly floor(5000/200) = 25 switches occur;
every switch displays an integer percentage in [20,60] drawn from its own
random draw, and displays the candidate at index (switch number mod pool
size) of the single shuffle of the pool computed before the first switch;
the trace (and hence the promise) resolves after the final switch. -/
theorem animateMatching_spec {α : Type} (pool : List α) (rs rp : Nat → ℚ)
    (hne : pool ≠ []) (hrp : ∀ k, 0 ≤ rp k ∧ rp k < 1) :
    (animateMatching pool rs rp 5000).length = 25 ∧
    5000 / 200 = 25 ∧
    (∀ k, k < 25 →
      ∃ t : MatchTick α, (animateMatching pool rs rp 5000)[k]? = some t ∧
        20 ≤ t.percentage ∧ t.percentage ≤ 60 ∧
        t.candidate = (shuffleArray pool rs)[k % pool.length]? ∧
        t.candidate.isSome = true) := by
  have hlen : (shuffleArray pool rs).length = pool.length := shuffleArray_length pool rs
  have hpos : 0 < pool.length := List.length_pos.mpr hne
  refine ⟨by simp [animateMatching], rfl, ?_⟩
  intro k hk
  refine ⟨_, animateMatching_getElem pool rs rp 5000 k hk, ?_, ?_, ?_, ?_⟩
  · exact (randomPercentage_mem (rp k) (hrp k).1 (hrp k).2).1
  · exact (randomPercentage_mem (rp k) (hrp k).1 (hrp k).2).2
  · rw [hlen]
  · have hlt : k % (shuffleArray pool rs).length < (shuffleArray pool rs).length := by
      rw [hlen]
      exact Nat.mod_lt k hpos
    simp [List.getElem?_eq_getElem hlt]

/-- Claim C1 witness: the matching theorem applied to a concrete three
element pool and the constant-zero random streams, at switch 3. -/
theorem animateMatching_spec_witness :
    ∃ t : MatchTick Nat,
      (animateMatching [10, 20, 30] (fun _ => 0) (fun _ => 0) 5000)[3]? = some t ∧
      20 ≤ t.percentage ∧ t.percentage ≤ 60 ∧
      t.candidate = (shuffleArray [10, 20, 30] (fun _ => 0))[3 % ([10, 20, 30] : List Nat).length]? ∧
      t.candidate.isSome = true :=
  (animateMatching_spec [10, 20, 30] (fun _ => 0) (fun _ => 0) (by decide)
    (fun _ => ⟨le_refl 0, by norm_num⟩)).2.2 3 (by decide)

/-- Claim C8: the traversal order of a matching run is a single fixed
permutation of the pool, and over a 19-candidate pool a 5000 ms run (25
switches) displays every candidate of the pool at least once, since the pool
size is below the switch count. -/
theorem shuffle_perm_and_full_coverage {α : Type} (pool : List α) (rs rp : Nat → ℚ)
    (hlen : pool.length = 19) :
    (shuffleArray pool rs).Perm pool ∧
    (animateMatching pool rs rp 5000).length = 25 ∧
    (∀ c ∈ pool, ∃ k, k < 25 ∧
      ∃ t : MatchTick α, (animateMatching pool rs rp 5000)[k]? = some t ∧
        t.candidate = some c) := by
  have hperm := shuffleArray_perm pool rs
  have hslen : (shuffleArray pool rs).length = 19 := by rw [hperm.length_eq, hlen]
  refine ⟨hperm, by simp [animateMatching], ?_⟩
  intro c hc
  have hcs : c ∈ shuffleArray pool rs := (hperm.mem_iff).mpr hc
  obtain ⟨i, hi, hget⟩ := List.getElem_of_mem hcs
  refine ⟨i, by omega, _, animateMatching_getElem pool rs rp 5000 i (by simp; omega), ?_⟩
  have him : i % (shuffleArray pool rs).length = i := by
    rw [hslen]
    exact Nat.mod_eq_of_lt (by omega)
  simp only [him]
  rw [List.getElem?_eq_getElem hi, hget]

/-- Claim C8 witness: the coverage theorem applied to the concrete pool
0..18 with the constant-zero random streams, for candidate 7. -/
theorem shuffle_perm_and_full_coverage_witness :
    ∃ k, k < 25 ∧
      ∃ t : MatchTick Nat,
        (animateMatching (List.range 19) (fun _ => 0) (fun _ => 0) 5000)[k]? = some t ∧
        t.candidate = some 7 :=
  (shuffle_perm_and_full_coverage (List.range 19) (fun _ => 0) (fun _ => 0)
    (by simp)).2.2 7 (by simp)

/-- Claim C10: for an empty candidate pool the matching run still completes:
all 25 switches occur, the indexing of the zero-length shuffled pool yields
no candidate (the source guards the portrait update with if (character), and
the undefined lookup is modeled as none), while the percentage is still
drawn and displayed at every switch; the trace resolves after the final
switch. -/
theorem animateMatching_empty_pool {α : Type} (rs rp : Nat → ℚ)
    (hrp : ∀ k, 0 ≤ rp k ∧ rp k < 1) :
    (animateMatching ([] : List α) rs rp 5000).length = 25 ∧
    (∀ k, k < 25 →
      ∃ t : MatchTick α, (animateMatching ([] : List α) rs rp 5000)[k]? = some t ∧
        t.candidate = none ∧ 20 ≤ t.percentage ∧ t.percentage ≤ 60) := by
  refine ⟨by simp [animateMatching], ?_⟩
  intro k hk
  refine ⟨_, animateMatching_getElem [] rs rp 5000 k hk, ?_,
    (randomPercentage_mem (rp k) (hrp k).1 (hrp k).2).1,
    (randomPercentage_mem (rp k) (hrp k).1 (hrp k).2).2⟩
  simp [shuffleArray, fyAux]

/-- Claim C10 witness: the empty-pool theorem applied to the constant-zero
random stream, at switch 24. -/
theorem animateMatching_empty_pool_witness :
    ∃ t : MatchTick Nat, (animateMatching ([] : List Nat) (fun _ => 0) (fun _ => 0) 5000)[24]? = some t ∧
      t.candidate = none ∧ 20 ≤ t.percentage ∧ t.percentage ≤ 60 :=
  (animateMatching_empty_pool (fun _ => 0) (fun _ => 0)
    (fun _ => ⟨le_refl 0, by norm_num⟩)).2 24 (by decide)

/-! ## Face crop (FaceDetection.cropToFace, faceDetection.js lines 29-64) -/

/-- A detection bounding box in source-image coordinates. -/
structure Box where
  x : ℚ
  y : ℚ
  width : ℚ
  height : ℚ
deriving DecidableEq

/-- The result of FaceDetection.cropToFace: the square output canvas, the
padded-and-clamped source rectangle that is copied into it, the centering
position of that rectangle inside the output canvas, and the recorded
offset (crop origin minus centering position) returned to the caller for
remapping landmark coordinates. -/
structure CropResult where
  canvasWidth : ℚ
  canvasHeight : ℚ
  srcX : ℚ
  srcY : ℚ
  srcWidth : ℚ
  srcHeight : ℚ
  destX : ℚ
  destY : ℚ
  offsetX : ℚ
  offsetY : ℚ
deriving DecidableEq

/-- FaceDetection.cropToFace (faceDetection.js lines 29-64). -/
def cropToFace (canvasWidth canvasHeight : ℚ) (box : Box) (padding : ℚ := 50) :
    CropResult :=
  let x := max 0 (box.x - padding)
  let y := max 0 (box.y - padding)
  let width := min (canvasWidth - x) (box.width + padding * 2)
  let height := min (canvasHeight - y) (box.height + padding * 2)
  let size := max width height
  let offsetX := (size - width) / 2
  let offsetY := (size - height) / 2
  { canvasWidth := size, canvasHeight := size,
    srcX := x, srcY := y, srcWidth := width, srcHeight := height,
    destX := offsetX, destY := offsetY,
    offsetX := x - offsetX, offsetY := y - offsetY }

/-- Claim C3: for every detection box and source canvas the crop output is
square with side length the larger of the padded-and-clamped box width and
height; the source rectangle of the crop is clamped at 0 and at the source
extent, and the recorded offset plus the crop dimensions never exceed the
source image bounds. -/
theorem cropToFace_spec (cw ch : ℚ) (box : Box) (padding : ℚ) :
    (cropToFace cw ch box padding).canvasWidth = (cropToFace cw ch box padding).canvasHeight ∧
    (cropToFace cw ch box padding).canvasWidth =
      max (cropToFace cw ch box padding).srcWidth (cropToFace cw ch box padding).srcHeight ∧
    0 ≤ (cropToFace cw ch box padding).srcX ∧
    0 ≤ (cropToFace cw ch box padding).srcY ∧
    (cropToFace cw ch box padding).srcX + (cropToFace cw ch box padding).srcWidth ≤ cw ∧
    (cropToFace cw ch box padding).srcY + (cropToFace cw ch box padding).srcHeight ≤ ch ∧
    (cropToFace cw ch box padding).offsetX + (cropToFace cw ch box padding).srcWidth ≤ cw ∧
    (cropToFace cw ch box padding).offsetY + (cropToFace cw ch box padding).srcHeight ≤ ch := by
  have key : ∀ x y width height : ℚ, 0 ≤ x → 0 ≤ y →
      width ≤ cw - x → height ≤ ch - y →
      0 ≤ x ∧ 0 ≤ y ∧ x + width ≤ cw ∧ y + height ≤ ch ∧
      (x - (max width height - width) / 2) + width ≤ cw ∧
      (y - (max width height - height) / 2) + height ≤ ch := by
    intro x y width height hx0 hy0 hwle hhle
    have hsw : width ≤ max width height := le_max_left _ _
    have hsh : height ≤ max width height := le_max_right _ _
    have hw2 : 0 ≤ (max width height - width) / 2 := by linarith
    have hh2 : 0 ≤ (max width height - height) / 2 := by linarith
    exact ⟨hx0, hy0, by linarith, by linarith, by linarith, by linarith⟩
  have h := key (max 0 (box.x - padding)) (max 0 (box.y - padding))
    (min (cw - max 0 (box.x - padding)) (box.width + padding * 2))
    (min (ch - max 0 (box.y - padding)) (box.height + padding * 2))
    (le_max_left 0 _) (le_max_left 0 _) (min_le_left _ _) (min_le_left _ _)
  exact ⟨rfl, rfl, h.1, h.2.1, h.2.2.1, h.2.2.2.1, h.2.2.2.2.1, h.2.2.2.2.2⟩

/-! ## Countdown and photo capture (Camera.startCountdown and
Camera.capturePhoto, camera.js lines 87-133) -/

/-- The numbers written to the countdown overlay by the interval handler of
Camera.startCountdown when the counter currently holds the given value: the
handler displays the counter, decrements it, and stops only once the
decremented counter is negative. -/
def countdownDisplays : Nat → List Nat
  | 0 => [0]
  | n + 1 => (n + 1) :: countdownDisplays n

/-- The observable outcome of Camera.startCountdown: the beep is played once
before the interval starts, the interval then fires every 1000 ms writing
the successive displays, and the promise resolves at the tick that wrote
the final display. -/
structure CountdownRun where
  beepPlayedOnceAtStart : Bool
  displays : List Nat
  tickMs : Nat
  resolveTimeMs : Nat
deriving DecidableEq

/-- Camera.startCountdown (camera.js lines 87-107), with the counter
initialized to 3. -/
def startCountdown : CountdownRun :=
  { beepPlayedOnceAtStart := true,
    displays := countdownDisplays 3,
    tickMs := 1000,
    resolveTimeMs := 1000 * (countdownDisplays 3).length }

/-- The observable outcome of Camera.capturePhoto: the countdown run it
awaits, then the shutter sound and the frame snapshot at the moment the
countdown resolved. -/
structure CaptureRun where
  countdown : CountdownRun
  shutterPlayedAtMs : Nat
  captureAtMs : Nat
deriving DecidableEq

/-- Camera.capturePhoto (camera.js lines 112-133). -/
def capturePhoto : CaptureRun :=
  { countdown := startCountdown,
    shutterPlayedAtMs := startCountdown.resolveTimeMs,
    captureAtMs := startCountdown.resolveTimeMs }

/-- Claim C2 (evaluation at the failing run): the countdown started by
capturePhoto displays the four numbers 3, 2, 1, 0 across four 1000 ms
ticks and captures the frame at 4000 ms, not the three numbers 3, 2, 1
with capture at 3000 ms stated by the specification and by the doc comment
of the source; the beep does play once at countdown start and the shutter
does play at the moment of capture. -/
theorem capturePhoto_countdown_runs_four_ticks :
    capturePhoto.countdown.displays = [3, 2, 1, 0] ∧
    capturePhoto.countdown.displays ≠ [3, 2, 1] ∧
    capturePhoto.countdown.tickMs = 1000 ∧
    capturePhoto.captureAtMs = 4000 ∧
    capturePhoto.captureAtMs ≠ 3000 ∧
    capturePhoto.countdown.beepPlayedOnceAtStart = true ∧
    capturePhoto.shutterPlayedAtMs = capturePhoto.captureAtMs := by
  refine ⟨rfl, by decide, rfl, rfl, by decide, rfl, rfl⟩

/-! ## Reveal timeline (Animation.animateReveal, animation.js lines 110-174) -/

/-- One observable step of Animation.animateReveal. -/
inductive RevealStep
  | flashOn
  | wait (ms : Nat)
  | flashOff
  | showContent
  | copyUserCanvas
  | setResultImage
  | fadeOutUser
  | playTrumpet
  | trumpetFailureLogged
  | fadeInResult
  | showText
  | confetti
  | showRestart
deriving DecidableEq

/-- Animation.animateReveal (animation.js lines 110-174) as the sequence of
its observable steps. The trumpet playback attempt is fire-and-forget: its
promise is not awaited, and a rejection is caught and logged, so neither
flag contributes a wait. -/
def animateReveal (trumpetPresent trumpetPlayOk : Bool) : List RevealStep :=
  [RevealStep.flashOn, RevealStep.wait 2500, RevealStep.flashOff,
   RevealStep.wait 300,
   RevealStep.showContent, RevealStep.copyUserCanvas, RevealStep.setResultImage,
   RevealStep.wait 1500,
   RevealStep.fadeOutUser, RevealStep.wait 1000] ++
  (if trumpetPresent then
     if trumpetPlayOk then [RevealStep.playTrumpet]
     else [RevealStep.playTrumpet, RevealStep.trumpetFailureLogged]
   else []) ++
  [RevealStep.fadeInResult, RevealStep.wait 1000, RevealStep.showText,
   RevealStep.confetti, RevealStep.wait 1000, RevealStep.showRestart]

/-- The scripted waits of a reveal trace, in order. -/
def revealWaits (steps : List RevealStep) : List Nat :=
  steps.filterMap (fun s => match s with
    | RevealStep.wait ms => some ms
    | _ => none)

/-- Claim C5: the scripted waits of the reveal animation before the restart
control appears are 2500, 300, 1500, 1000, 1000, 1000, summing to 7300 ms,
for every combination of trumpet-asset presence and playback success; the
restart control is the final step of the timeline. -/
theorem animateReveal_waits_spec (trumpetPresent trumpetPlayOk : Bool) :
    revealWaits (animateReveal trumpetPresent trumpetPlayOk) =
      [2500, 300, 1500, 1000, 1000, 1000] ∧
    (revealWaits (animateReveal trumpetPresent trumpetPlayOk)).sum = 7300 ∧
    2500 + 300 + 1500 + 1000 + 1000 + 1000 = 7300 ∧
    (animateReveal trumpetPresent trumpetPlayOk).getLast? = some RevealStep.showRestart := by
  cases trumpetPresent <;> cases trumpetPlayOk <;> exact ⟨rfl, rfl, rfl, rfl⟩

/-! ## Progressive landmark reveal (FaceDetection.animateLandmarksProgressive
and FaceDetection.drawLandmarkConnections, faceDetection.js lines 97-127 and
247-282) -/

/-- A 2-D landmark point. -/
structure Pt where
  x : ℚ
  y : ℚ
deriving DecidableEq

/-- Translation of a landmark point by the recorded crop offset, as done by
every drawing routine (point.x - offset.x, point.y - offset.y). -/
def translatePt (p off : Pt) : Pt := { x := p.x - off.x, y := p.y - off.y }

/-- One observable drawing step of the landmark animation. -/
inductive DrawOp
  | point (p : Pt) (radius : ℚ) (glow : Bool)
  | waitMs (ms : Nat)
  | openPath (points : List Pt)
  | closedPath (points : List Pt)
deriving DecidableEq

/-- JavaScript Array.prototype.slice(a, b) on lists. -/
def jsSlice (l : List α) (a b : Nat) : List α := (l.drop a).take (b - a)

/-- FaceDetection.drawPath (faceDetection.js lines 132-143): a single open
stroked path through the translated points; fewer than two points draw
nothing. -/
def drawPath (points : List Pt) (off : Pt) : List DrawOp :=
  if points.length < 2 then []
  else [DrawOp.openPath (points.map (fun p => translatePt p off))]

/-- FaceDetection.drawClosedPath (faceDetection.js lines 148-160): as
drawPath but the path is closed back to its first point. -/
def drawClosedPath (points : List Pt) (off : Pt) : List DrawOp :=
  if points.length < 2 then []
  else [DrawOp.closedPath (points.map (fun p => translatePt p off))]

/-- FaceDetection.drawLandmarkConnections (faceDetection.js lines 97-127):
the anatomical connection paths, drawn in one pass. -/
def drawLandmarkConnections (positions : List Pt) (off : Pt) : List DrawOp :=
  drawPath (jsSlice positions 0 17) off ++
  drawPath (jsSlice positions 17 22) off ++
  drawPath (jsSlice positions 22 27) off ++
  drawPath (jsSlice positions 27 31) off ++
  drawPath (jsSlice positions 31 36) off ++
  drawClosedPath (jsSlice positions 36 42) off ++
  drawClosedPath (jsSlice positions 42 48) off ++
  drawClosedPath (jsSlice positions 48 60) off ++
  drawClosedPath (jsSlice positions 60 68) off

/-- FaceDetection.animateLandmarksProgressive (faceDetection.js lines
247-282): each point is drawn with a glow effect and followed by a 30 ms
delay; after all points, the connections are drawn in one pass, followed by
a 1000 ms settle delay before the promise resolves. -/
def animateLandmarksProgressive (positions : List Pt) (off : Pt) : List DrawOp :=
  (positions.flatMap (fun p =>
    [DrawOp.point (translatePt p off) 3 true, DrawOp.waitMs 30])) ++
  drawLandmarkConnections positions off ++
  [DrawOp.waitMs 1000]

/-- Recognizer for point-drawing steps. -/
def isPointOp : DrawOp → Bool
  | DrawOp.point _ _ _ => true
  | _ => false

theorem points_filter_length (ps : List Pt) (off : Pt) :
    ((ps.flatMap (fun p =>
      [DrawOp.point (translatePt p off) 3 true, DrawOp.waitMs 30])).filter isPointOp).length =
      ps.length := by
  induction ps with
  | nil => simp
  | cons p t ih => simp [isPointOp, ih]

/-- Claim C7: for a 68-point landmark set the progressive reveal draws each
of the 68 points in order, every point with a glow effect and followed by a
fixed 30 ms delay; after all points it draws, in one pass, open paths for
the jawline (0-16), each brow (17-21, 22-26), the nose bridge (27-30) and
the nose base (31-35), and closed paths for each eye (36-41, 42-47) and
both lip contours (48-59, 60-67); it then holds for a fixed 1000 ms settle
delay as its final step. -/
theorem animateLandmarksProgressive_spec (positions : List Pt) (off : Pt)
    (hlen : positions.length = 68) :
    animateLandmarksProgressive positions off =
      (positions.flatMap (fun p =>
        [DrawOp.point (translatePt p off) 3 true, DrawOp.waitMs 30])) ++
      [DrawOp.openPath ((jsSlice positions 0 17).map (fun p => translatePt p off)),
       DrawOp.openPath ((jsSlice positions 17 22).map (fun p => translatePt p off)),
       DrawOp.openPath ((jsSlice positions 22 27).map (fun p => translatePt p off)),
       DrawOp.openPath ((jsSlice positions 27 31).map (fun p => translatePt p off)),
       DrawOp.openPath ((jsSlice positions 31 36).map (fun p => translatePt p off)),
       DrawOp.closedPath ((jsSlice positions 36 42).map (fun p => translatePt p off)),
       DrawOp.closedPath ((jsSlice positions 42 48).map (fun p => translatePt p off)),
       DrawOp.closedPath ((jsSlice positions 48 60).map (fun p => translatePt p off)),
       DrawOp.closedPath ((jsSlice positions 60 68).map (fun p => translatePt p off))] ++
      [DrawOp.waitMs 1000] ∧
    ((animateLandmarksProgressive positions off).filter isPointOp).length = 68 ∧
    (animateLandmarksProgressive positions off).getLast? = some (DrawOp.waitMs 1000) := by
  have hconn : drawLandmarkConnections positions off =
      [DrawOp.openPath ((jsSlice positions 0 17).map (fun p => translatePt p off)),
       DrawOp.openPath ((jsSlice positions 17 22).map (fun p => translatePt p off)),
       DrawOp.openPath ((jsSlice positions 22 27).map (fun p => translatePt p off)),
       DrawOp.openPath ((jsSlice positions 27 31).map (fun p => translatePt p off)),
       DrawOp.openPath ((jsSlice positions 31 36).map (fun p => translatePt p off)),
       DrawOp.closedPath ((jsSlice positions 36 42).map (fun p => translatePt p off)),
       DrawOp.closedPath ((jsSlice positions 42 48).map (fun p => translatePt p off)),
       DrawOp.closedPath ((jsSlice positions 48 60).map (fun p => translatePt p off)),
       DrawOp.closedPath ((jsSlice positions 60 68).map (fun p => translatePt p off))] := by
    unfold drawLandmarkConnections drawPath drawClosedPath
    simp [jsSlice, hlen]
  refine ⟨by rw [animateLandmarksProgressive, hconn], ?_, ?_⟩
  · rw [animateLandmarksProgressive, hconn]
    simp [List.filter_append, points_filter_length, isPointOp, hlen]
  · rw [animateLandmarksProgressive]
    simp

/-- Claim C7 witness: the landmark theorem applied to the concrete 68-point
set (k, 0) for k in 0..67 with a zero offset; this instance counts the 68
point-drawing steps. -/
theorem animateLandmarksProgressive_spec_witness :
    ((animateLandmarksProgressive
        ((List.range 68).map (fun k : Nat => { x := (k : ℚ), y := 0 })) { x := 0, y := 0 }).filter
      isPointOp).length = 68 :=
  (animateLandmarksProgressive_spec _ _ (by simp)).2.1

/-! ## Asset preloading (Preloader, preloader.js) -/

/-- A loaded image handle. -/
structure Img where
  src : String
deriving DecidableEq

/-- A loaded sound handle. -/
structure Sound where
  src : String
deriving DecidableEq

/-- The 19 character image sources of Preloader.generatePlaceholderImages
(preloader.js lines 184-211); every entry of the characters table carries an
image path, so the placehold.co fallback of the src computation is never
taken. -/
def generatePlaceholderImages : List String :=
  ["assets/images/characters/joi.avif",
   "assets/images/characters/devil.webp",
   "assets/images/characters/evelyn.jpg",
   "assets/images/characters/elisha.avif",
   "assets/images/characters/carolina.webp",
   "assets/images/characters/nancy.jpg",
   "assets/images/characters/persephone.jpg",
   "assets/images/characters/ilsa.jpg",
   "assets/images/characters/rita.jpeg",
   "assets/images/characters/rick.webp",
   "assets/images/characters/indiana.webp",
   "assets/images/characters/aragorn.webp",
   "assets/images/characters/christian.webp",
   "assets/images/characters/driver.jpg",
   "assets/images/characters/westley.webp",
   "assets/images/characters/bloodsport.jpg",
   "assets/images/characters/naomi.webp",
   "assets/images/characters/allison.webp",
   "assets/images/characters/bandit.webp"]

/-- The three sound sources of Preloader.loadAll. -/
def soundSources : List String :=
  ["assets/sounds/timer-beep.mp3",
   "assets/sounds/camera-shutter.mp3",
   "assets/sounds/trumpet.mp3"]

/-- The sloth image source of Preloader.getPlaceholderSloth. -/
def slothSrc : String := "assets/images/characters/sloth.webp"

/-- Preloader.loadImage (preloader.js lines 17-33): both the onload and the
onerror handler resolve the promise (success with the image, failure with
null after logging), so the promise never rejects. -/
def loadImage (src : String) (ok : Bool) : Except String (Option Img) :=
  if ok then Except.ok (some { src := src }) else Except.ok none

/-- Preloader.loadSound (preloader.js lines 38-68): both the can-play and
the error handler resolve the promise, so it never rejects. -/
def loadSound (src : String) (ok : Bool) : Except String (Option Sound) :=
  if ok then Except.ok (some { src := src }) else Except.ok none

/-- Preloader.loadFaceApiModels (preloader.js lines 73-90): the model loads
are awaited inside try/catch and the function returns true or false, never
throwing. -/
def loadFaceApiModels (ok : Bool) : Except String Bool := Except.ok ok

/-- The success/failure outcome of every individual asset load of a run. -/
structure LoadOutcomes where
  imageOk : String → Bool
  soundOk : String → Bool
  modelsOk : Bool

/-- The asset bundle assembled by Preloader.loadAll: failed character images
are filtered out, the sloth image and each sound keep an absent marker when
their load failed. -/
structure AssetBundle where
  images : List Img
  slothImage : Option Img
  timerBeep : Option Sound
  cameraShutter : Option Sound
  trumpet : Option Sound
  modelsLoaded : Bool
deriving DecidableEq

/-- Preloader.loadAll (preloader.js lines 120-166): await all image, sloth,
sound and model loads (Promise.all is the monadic traversal) and assemble
the bundle. -/
def loadAll (o : LoadOutcomes) : Except String AssetBundle := do
  let loadedImages ← generatePlaceholderImages.mapM
    (fun src => loadImage src (o.imageOk src))
  let slothImage ← loadImage slothSrc (o.imageOk slothSrc)
  let loadedSounds ← soundSources.mapM (fun src => loadSound src (o.soundOk src))
  let modelsLoaded ← loadFaceApiModels o.modelsOk
  Except.ok
    { images := loadedImages.filterMap id,
      slothImage := slothImage,
      timerBeep := (loadedSounds[0]?).join,
      cameraShutter := (loadedSounds[1]?).join,
      trumpet := (loadedSounds[2]?).join,
      modelsLoaded := modelsLoaded }

/-- Preloader.loadAll counts 19 character images + 3 sounds + 2 face-api
models + 1 sloth image as its asset total (preloader.js line 136). -/
def totalAssets : Nat :=
  generatePlaceholderImages.length + soundSources.length + 2 + 1

/-- The increments applied to the loadedAssets counter, one entry per
settlement step in settlement order: each image or sound settlement (success
or failure) adds 1 before updating the progress bar, and the single
settlement of the model pair adds 2. -/
def loadWeights : List Nat :=
  List.replicate (generatePlaceholderImages.length + 1 + soundSources.length) 1 ++ [2]

/-- The loadedAssets counter after the first k settlement steps. -/
def loadedAfter (ws : List Nat) (k : Nat) : Nat := (ws.take k).sum

/-- The progress ratio loaded/total after the first k settlement steps. -/
def progressAfter (ws : List Nat) (k : Nat) : ℚ :=
  (loadedAfter ws k : ℚ) / (totalAssets : ℚ)

/-- A traversal of loaders that always resolve itself always resolves. -/
theorem mapM_always_ok {ε β σ : Type} (g : σ → Except ε β)
    (h : ∀ s, ∃ v, g s = Except.ok v) :
    ∀ l : List σ, ∃ vs : List β, l.mapM g = Except.ok vs := by
  intro l
  induction l with
  | nil => exact ⟨[], rfl⟩
  | cons a t ih =>
    obtain ⟨v, hv⟩ := h a
    obtain ⟨vs, hvs⟩ := ih
    refine ⟨v :: vs, ?_⟩
    rw [← List.mapM'_eq_mapM] at hvs ⊢
    simp only [List.mapM', hv, hvs]
    rfl

/-- Claim C4: loadAll always resolves with a bundle, whatever the individual
load outcomes; over any settlement order of the asset loads the progress
ratio is monotonically non-decreasing and equals exactly 1 once every
settlement step (including both failed and successful loads) has been
counted. -/
theorem loadAll_spec (o : LoadOutcomes) (ws : List Nat) (hw : ws.Perm loadWeights)
    (k j : Nat) (hkj : k ≤ j) :
    (∃ b : AssetBundle, loadAll o = Except.ok b) ∧
    progressAfter ws k ≤ progressAfter ws j ∧
    progressAfter ws ws.length = 1 ∧
    totalAssets = 25 := by
  refine ⟨?_, ?_, ?_, rfl⟩
  · obtain ⟨imgs, himgs⟩ := mapM_always_ok (fun src => loadImage src (o.imageOk src))
      (fun s => by unfold loadImage; by_cases h : o.imageOk s <;> simp [h])
      generatePlaceholderImages
    obtain ⟨snds, hsnds⟩ := mapM_always_ok (fun src => loadSound src (o.soundOk src))
      (fun s => by unfold loadSound; by_cases h : o.soundOk s <;> simp [h])
      soundSources
    have hsloth : ∃ v, loadImage slothSrc (o.imageOk slothSrc) = Except.ok v := by
      unfold loadImage; by_cases h : o.imageOk slothSrc <;> simp [h]
    obtain ⟨sl, hsl⟩ := hsloth
    refine ⟨{ images := imgs.filterMap id, slothImage := sl,
              timerBeep := (snds[0]?).join, cameraShutter := (snds[1]?).join,
              trumpet := (snds[2]?).join, modelsLoaded := o.modelsOk }, ?_⟩
    unfold loadAll loadFaceApiModels
    rw [himgs, hsl, hsnds]
    rfl
  · unfold progressAfter loadedAfter
    have hmono : (ws.take k).sum ≤ (ws.take j).sum := by
      have hj : j = k + (j - k) := by omega
      rw [hj, List.take_add, List.sum_append]
      exact Nat.le_add_right _ _
    have hden : (0 : ℚ) ≤ (totalAssets : ℚ) := by positivity
    exact div_le_div_of_nonneg_right (by exact_mod_cast hmono) hden
  · unfold progressAfter loadedAfter
    rw [List.take_length, hw.sum_eq]
    norm_num [loadWeights, totalAssets, generatePlaceholderImages, soundSources]

/-- Claim C4 witness: the preloader theorem applied to the all-failures
outcome, the canonical settlement order, and steps 0 ≤ 5. -/
theorem loadAll_spec_witness :
    (∃ b : AssetBundle,
      loadAll { imageOk := fun _ => false, soundOk := fun _ => false, modelsOk := false } =
        Except.ok b) ∧
    progressAfter loadWeights 0 ≤ progressAfter loadWeights 5 ∧
    progressAfter loadWeights loadWeights.length = 1 ∧
    totalAssets = 25 :=
  loadAll_spec { imageOk := fun _ => false, soundOk := fun _ => false, modelsOk := false }
    loadWeights (List.Perm.refl _) 0 5 (by omega)

/-! ## File upload (Camera.loadImageFromFile, camera.js lines 145-168) -/

/-- A user-supplied file: its declared MIME type, its contents (as the data
URL the reader produces), and whether the read and the image decode
succeed. -/
structure UploadFile where
  type : String
  content : String
  readOk : Bool
  decodesOk : Bool
deriving DecidableEq

/-- The rejection reasons of Camera.loadImageFromFile, one per reject call
of the source. -/
inductive FileLoadError
  | notAnImage
  | failedToReadFile
  | failedToLoadImage
deriving DecidableEq

/-- A decoded pixel surface produced from an accepted file. -/
structure DecodedImage where
  src : String
deriving DecidableEq

/-- The semantics of JavaScript String.prototype.startsWith: the characters
of p are an initial segment of the characters of s. -/
def jsStartsWith (s p : String) : Bool := s.data.take p.data.length == p.data

/-- Camera.loadImageFromFile (camera.js lines 145-168): reject immediately
unless the declared MIME type starts with image/, then read the file
(rejecting on reader error), then decode the image (rejecting on decode
error), and resolve with the decoded image. -/
def loadImageFromFile (file : UploadFile) : Except FileLoadError DecodedImage :=
  if !(jsStartsWith file.type "image/") then Except.error FileLoadError.notAnImage
  else if !file.readOk then Except.error FileLoadError.failedToReadFile
  else if !file.decodesOk then Except.error FileLoadError.failedToLoadImage
  else Except.ok { src := file.content }

/-- Claim C9: the upload path accepts a file only if its declared MIME type
is an image type: every file whose declared type does not start with image/
is rejected, every file that reads but fails to decode is rejected (as is
every file that fails to read), and every readable, decodable image file
resolves with a decoded pixel surface. -/
theorem loadImageFromFile_spec :
    (∀ f : UploadFile, jsStartsWith f.type "image/" = false →
      loadImageFromFile f = Except.error FileLoadError.notAnImage) ∧
    (∀ f : UploadFile, jsStartsWith f.type "image/" = true → f.readOk = false →
      loadImageFromFile f = Except.error FileLoadError.failedToReadFile) ∧
    (∀ f : UploadFile, jsStartsWith f.type "image/" = true → f.readOk = true →
      f.decodesOk = false →
      loadImageFromFile f = Except.error FileLoadError.failedToLoadImage) ∧
    (∀ f : UploadFile, jsStartsWith f.type "image/" = true → f.readOk = true →
      f.decodesOk = true →
      loadImageFromFile f = Except.ok { src := f.content }) := by
  refine ⟨?_, ?_, ?_, ?_⟩ <;> intro f h1 <;>
    first
      | (intro h2 h3; simp [loadImageFromFile, h1, h2, h3])
      | (intro h2; simp [loadImageFromFile, h1, h2])
      | simp [loadImageFromFile, h1]

/-- Claim C9 witness: the upload theorem applied to a text file, an image
file failing decode, and a decodable image file. -/
theorem loadImageFromFile_spec_witness :
    loadImageFromFile { type := "text/plain", content := "x", readOk := true, decodesOk := true } =
      Except.error FileLoadError.notAnImage ∧
    loadImageFromFile { type := "image/png", content := "x", readOk := true, decodesOk := false } =
      Except.error FileLoadError.failedToLoadImage ∧
    loadImageFromFile { type := "image/png", content := "x", readOk := true, decodesOk := true } =
      Except.ok { src := "x" } :=
  ⟨loadImageFromFile_spec.1 _ (by decide),
   loadImageFromFile_spec.2.2.1 _ (by decide) rfl rfl,
   loadImageFromFile_spec.2.2.2 _ (by decide) rfl rfl⟩

/-! ## Screen state machine and capture-device lifecycle
(MovieDoppelgangerApp in the main application module, and Camera.stop,
camera.js lines 50-58) -/

/-- The screens of the application, exactly one active at a time. -/
inductive Screen
  | loading
  | upload
  | webcam
  | analysis
  | matching
  | reveal
  | errorScreen
deriving DecidableEq

/-- The orchestrator state: the active screen and whether the capture
device stream is currently held (camera.stream non-null). -/
structure AppState where
  screen : Screen
  streamActive : Bool
deriving DecidableEq

/-- How far a handleTakePhoto run gets: capturePhoto itself throws (the
catch branch shows an alert and stays on the webcam screen), the blob-to-
image load fails after the camera was stopped, detection finds no face, or
the full pipeline runs to the reveal screen. -/
inductive PhotoOutcome
  | captureFail
  | loadFail
  | noFace
  | matched
deriving DecidableEq

/-- The user- and pipeline-driven events of the main application module. -/
inductive AppEvent
  | assetsLoaded
  | webcamClick (granted : Bool)
  | takePhoto (outcome : PhotoOutcome)
  | cancelWebcam
  | fileUpload (decoded : Bool) (faceFound : Bool)
  | retry
  | restart
deriving DecidableEq

/-- The transition function of the main application module; each event only
fires from the screen carrying its control. handleTakePhoto calls
camera.stop() immediately after capturePhoto resolves, before any screen
switch, so every continuation past a successful capture runs with the
stream released; a capturePhoto failure keeps the webcam screen and the
stream. handleCancelWebcam calls camera.stop() and returns to the upload
screen. handleFileUpload never touches the stream. -/
def step (s : AppState) (e : AppEvent) : AppState :=
  match e with
  | AppEvent.assetsLoaded =>
      if s.screen = Screen.loading then { s with screen := Screen.upload } else s
  | AppEvent.webcamClick granted =>
      if s.screen = Screen.upload then
        if granted then { screen := Screen.webcam, streamActive := true } else s
      else s
  | AppEvent.takePhoto outcome =>
      if s.screen = Screen.webcam then
        match outcome with
        | PhotoOutcome.captureFail => s
        | PhotoOutcome.loadFail => { s with streamActive := false }
        | PhotoOutcome.noFace => { screen := Screen.errorScreen, streamActive := false }
        | PhotoOutcome.matched => { screen := Screen.reveal, streamActive := false }
      else s
  | AppEvent.cancelWebcam =>
      if s.screen = Screen.webcam then
        { screen := Screen.upload, streamActive := false }
      else s
  | AppEvent.fileUpload decoded faceFound =>
      if s.screen = Screen.upload then
        if decoded then
          if faceFound then { s with screen := Screen.reveal }
          else { s with screen := Screen.errorScreen }
        else s
      else s
  | AppEvent.retry =>
      if s.screen = Screen.errorScreen then { s with screen := Screen.upload } else s
  | AppEvent.restart =>
      if s.screen = Screen.reveal then { s with screen := Screen.upload } else s

/-- The state at startup: the loading screen, no stream held. -/
def initialState : AppState := { screen := Screen.loading, streamActive := false }

/-- The state after a sequence of events from startup. -/
def run (events : List AppEvent) : AppState := events.foldl step initialState

/-- The device-ownership invariant: the stream is held only while the
webcam screen is active. -/
def deviceScoped (s : AppState) : Prop := s.streamActive = true → s.screen = Screen.webcam

instance (s : AppState) : Decidable (deviceScoped s) := by
  unfold deviceScoped
  infer_instance

theorem step_deviceScoped (s : AppState) (e : AppEvent) (h : deviceScoped s) :
    deviceScoped (step s e) := by
  obtain ⟨sc, st⟩ := s
  cases st with
  | false =>
    cases e with
    | assetsLoaded => cases sc <;> decide
    | webcamClick granted => cases granted <;> cases sc <;> decide
    | takePhoto outcome => cases outcome <;> cases sc <;> decide
    | cancelWebcam => cases sc <;> decide
    | fileUpload decoded faceFound =>
        cases decoded <;> cases faceFound <;> cases sc <;> decide
    | retry => cases sc <;> decide
    | restart => cases sc <;> decide
  | true =>
    have hsc : sc = Screen.webcam := h rfl
    subst hsc
    cases e with
    | assetsLoaded => decide
    | webcamClick granted => cases granted <;> decide
    | takePhoto outcome => cases outcome <;> decide
    | cancelWebcam => decide
    | fileUpload decoded faceFound => cases decoded <;> cases faceFound <;> decide
    | retry => decide
    | restart => decide

theorem run_deviceScoped (events : List AppEvent) : deviceScoped (run events) := by
  suffices h : ∀ s, deviceScoped s → deviceScoped (events.foldl step s) by
    refine h initialState ?_
    intro hact
    simp [initialState] at hact
  induction events with
  | nil => intro s hs; exact hs
  | cons e t ih => intro s hs; exact ih (step s e) (step_deviceScoped s e hs)

/-- Claim C6: on every exit path from the capture stage the device is
released before the next screen takes over. Every transition out of the
webcam screen - cancel, capture success (whether it reaches the reveal, the
error screen, or fails after the snapshot) - leaves the stream released,
and along every event sequence from startup the stream is held only while
the webcam screen is active, so no device handle outlives its stage. -/
theorem capture_device_scoped :
    (∀ s : AppState, s.screen = Screen.webcam →
      (step s AppEvent.cancelWebcam).streamActive = false ∧
      (step s (AppEvent.takePhoto PhotoOutcome.matched)).streamActive = false ∧
      (step s (AppEvent.takePhoto PhotoOutcome.noFace)).streamActive = false ∧
      (step s (AppEvent.takePhoto PhotoOutcome.loadFail)).streamActive = false) ∧
    (∀ events : List AppEvent, (run events).screen ≠ Screen.webcam →
      (run events).streamActive = false) := by
  constructor
  · intro s hs
    obtain ⟨sc, st⟩ := s
    subst hs
    exact ⟨rfl, rfl, rfl, rfl⟩
  · intro events hscreen
    have h := run_deviceScoped events
    by_cases hact : (run events).streamActive = true
    · exact absurd (h hact) hscreen
    · simpa using hact

/-- Claim C6 witness: the scoping theorem applied to a concrete webcam
state and to a concrete event sequence that enters and cancels the capture
stage. -/
theorem capture_device_scoped_witness :
    (step { screen := Screen.webcam, streamActive := true }
      AppEvent.cancelWebcam).streamActive = false ∧
    (run [AppEvent.assetsLoaded, AppEvent.webcamClick true,
          AppEvent.cancelWebcam]).streamActive = false :=
  ⟨(capture_device_scoped.1 { screen := Screen.webcam, streamActive := true } rfl).1,
   capture_device_scoped.2 [AppEvent.assetsLoaded, AppEvent.webcamClick true,
     AppEvent.cancelWebcam] (by decide)⟩

end MovieDoppelganger
